import Mathlib

/-!
Verification of the Surface fan drivers.

This file gives a shallow embedding of the two driver source files,
src/drivers/hwmon/surface_fan.c (namespace HwmonOnly) and
src/drivers/platform/surface/surface_fan.c (namespace Platform), and proves
properties of the embedded functions.

Modelling conventions:
- A 16-bit little-endian wire quantity (C type __le16) is a pair of byte
  values, structure Le16.
- Machine integers are Nat (unsigned) or Int (C int return codes), with
  explicit reductions modulo 2 ^ 16 where the C code truncates to 16 bits.
- A SSAM synchronous transaction (the channel) is an explicit parameter of
  type Except Int Le16 for reads: Except.ok holds the response buffer on
  success, Except.error holds the nonzero status code on failure, in which
  case the response buffer of the caller is left untouched. For writes the
  channel is a function from the transmitted buffer to the status code.
- Each embedded entry point returns a record that carries the C return
  value, the value written through the output pointer (none when the
  pointer is not written), and the number of remote transport transactions
  the call performed.
-/

namespace SurfaceFan

/-- A 16-bit little-endian quantity as stored in memory: low byte first. -/
structure Le16 where
  lo : Nat
  hi : Nat
deriving DecidableEq, Repr

/-- Linux le16_to_cpu: decode a little-endian 16-bit buffer to a native
unsigned value. Byte fields are reduced modulo 256 as the hardware type
dictates. -/
def le16_to_cpu (v : Le16) : Nat :=
  v.lo % 256 + 256 * (v.hi % 256)

/-- Linux cpu_to_le16: the argument has C type u16, so a wider native value
is first truncated modulo 2 ^ 16, then split into little-endian bytes. -/
def cpu_to_le16 (v : Nat) : Le16 :=
  { lo := v % 65536 % 256, hi := v % 65536 / 256 }

/-- Linux clamp macro on unsigned values: clamp(val, lo, hi) = min(max(val, lo), hi). -/
def clamp (val lo hi : Nat) : Nat :=
  min (max val lo) hi

/- Constants of enum hwmon_sensor_types from include/linux/hwmon.h. -/

def hwmon_chip : Nat := 0
def hwmon_temp : Nat := 1
def hwmon_in : Nat := 2
def hwmon_curr : Nat := 3
def hwmon_power : Nat := 4
def hwmon_energy : Nat := 5
def hwmon_humidity : Nat := 6
def hwmon_fan : Nat := 7
def hwmon_pwm : Nat := 8

/- Constants of enum hwmon_fan_attributes from include/linux/hwmon.h. -/

def hwmon_fan_enable : Nat := 0
def hwmon_fan_input : Nat := 1
def hwmon_fan_label : Nat := 2
def hwmon_fan_min : Nat := 3
def hwmon_fan_max : Nat := 4

/- errno constants used by the drivers. -/

def EIO : Int := 5
def ENOMEM : Int := 12
def ENODEV : Int := 19
def EOPNOTSUPP : Int := 95
def EPROBE_DEFER : Int := 517

/-- Outcome of a read-style entry point: the C int return value, the value
stored through the output pointer (none when the function returns without
writing it), and how many remote transport transactions were performed. -/
structure ReadResult where
  ret : Int
  val : Option Nat
  transportCalls : Nat
deriving DecidableEq, Repr

/-- Outcome of the hwmon write entry point: the C int return value and how
many remote transport transactions were performed. -/
structure WriteResult where
  ret : Int
  transportCalls : Nat
deriving DecidableEq, Repr

namespace HwmonOnly

/-- SURFACE_FAN_MIN_SPEED in src/drivers/hwmon/surface_fan.c. -/
def SURFACE_FAN_MIN_SPEED : Nat := 3000

/-- SURFACE_FAN_MAX_SPEED in src/drivers/hwmon/surface_fan.c. -/
def SURFACE_FAN_MAX_SPEED : Nat := 7500

/-- surface_fan_hwmon_read in src/drivers/hwmon/surface_fan.c.
The channel parameter fan_rpm_get is the outcome of the
__ssam_fan_rpm_get transaction, consulted only on the hwmon_fan_input
path. A type other than hwmon_fan returns 0 without touching the output;
fan_input failure returns - EIO; fan_min and fan_max return the constant
bounds; any other fan attribute returns -1. -/
def surface_fan_hwmon_read (fan_rpm_get : Except Int Le16)
    (type attr : Nat) : ReadResult :=
  if type ≠ hwmon_fan then
    { ret := 0, val := none, transportCalls := 0 }
  else if attr = hwmon_fan_input then
    match fan_rpm_get with
    | .error _ => { ret := - EIO, val := none, transportCalls := 1 }
    | .ok value =>
        { ret := 0, val := some (le16_to_cpu value), transportCalls := 1 }
  else if attr = hwmon_fan_min then
    { ret := 0, val := some SURFACE_FAN_MIN_SPEED, transportCalls := 0 }
  else if attr = hwmon_fan_max then
    { ret := 0, val := some SURFACE_FAN_MAX_SPEED, transportCalls := 0 }
  else
    { ret := -1, val := none, transportCalls := 0 }

end HwmonOnly

namespace Platform

/-- The __le16 buffer transmitted by surface_fan_set_cur_state in
src/drivers/platform/surface/surface_fan.c:
cpu_to_le16(clamp(state, 0lu, (1lu << 16))). The state argument has C type
unsigned long, modelled as Nat. -/
def surface_fan_set_cur_state_wire (state : Nat) : Le16 :=
  cpu_to_le16 (clamp state 0 (2 ^ 16))

/-- surface_fan_set_cur_state in src/drivers/platform/surface/surface_fan.c.
The channel parameter fan_set is the __ssam_fan_set transaction, mapping
the transmitted buffer to its status code; the function returns that
status. -/
def surface_fan_set_cur_state (fan_set : Le16 → Int) (state : Nat) : Int :=
  fan_set (surface_fan_set_cur_state_wire state)

/-- surface_fan_get_cur_state in src/drivers/platform/surface/surface_fan.c.
The local __le16 buffer is zero-initialized; __ssam_fan_get fills it only
on success. The decoded buffer is stored through the state output pointer
unconditionally, and the transaction status is returned as is. -/
def surface_fan_get_cur_state (fan_get : Except Int Le16) : ReadResult :=
  match fan_get with
  | .ok value =>
      { ret := 0, val := some (le16_to_cpu value), transportCalls := 1 }
  | .error res =>
      { ret := res, val := some (le16_to_cpu { lo := 0, hi := 0 }),
        transportCalls := 1 }

/-- surface_fan_get_max_state in src/drivers/platform/surface/surface_fan.c:
stores the constant 7200 and returns 0. -/
def surface_fan_get_max_state : ReadResult :=
  { ret := 0, val := some 7200, transportCalls := 0 }

/-- surface_fan_hwmon_read in src/drivers/platform/surface/surface_fan.c.
The channel parameter fan_get is the outcome of the __ssam_fan_get
transaction, consulted only on the hwmon_fan_input path. fan_input failure
returns -1 without touching the output; fan_min and fan_max return the
constants 2000 and 7200; every other type or attribute falls through to
return -1. -/
def surface_fan_hwmon_read (fan_get : Except Int Le16)
    (type attr : Nat) : ReadResult :=
  if type = hwmon_fan then
    if attr = hwmon_fan_input then
      match fan_get with
      | .error _ => { ret := -1, val := none, transportCalls := 1 }
      | .ok value =>
          { ret := 0, val := some (le16_to_cpu value), transportCalls := 1 }
    else if attr = hwmon_fan_min then
      { ret := 0, val := some 2000, transportCalls := 0 }
    else if attr = hwmon_fan_max then
      { ret := 0, val := some 7200, transportCalls := 0 }
    else
      { ret := -1, val := none, transportCalls := 0 }
  else
    { ret := -1, val := none, transportCalls := 0 }

/-- surface_fan_hwmon_write in src/drivers/platform/surface/surface_fan.c.
The body only fetches the driver data and returns 0: every write is
accepted as a no-op, for every sensor type, attribute, channel and value,
with no remote transaction. -/
def surface_fan_hwmon_write (type attr : Nat) (channel : Int)
    (val : Int) : WriteResult :=
  { ret := 0, transportCalls := 0 }

/-- Outcomes of the external collaborators consumed by surface_fan_probe in
src/drivers/platform/surface/surface_fan.c, in program order:
ssam_client_bind (error -ENODEV is the signal that the SSAM controller is
not yet enumerated), the presence-probe __ssam_fan_get transaction,
devm_kzalloc, thermal_cooling_device_register and
devm_hwmon_device_register_with_info. -/
structure ProbeEnv where
  client_bind : Except Int Unit
  fan_get : Except Int Le16
  kzalloc_ok : Bool
  cooling_register : Except Int Unit
  hwmon_register : Except Int Unit

/-- surface_fan_probe in src/drivers/platform/surface/surface_fan.c.
Return value -EPROBE_DEFER is the Deferred state (retry binding later),
-ENODEV after a failed presence probe is the permanent Failed state, and 0
is the Bound state. -/
def surface_fan_probe (env : ProbeEnv) : Int :=
  match env.client_bind with
  | .error e => if e = -ENODEV then -EPROBE_DEFER else e
  | .ok _ =>
    match env.fan_get with
    | .error _ => -ENODEV
    | .ok _ =>
      if env.kzalloc_ok = false then -ENOMEM
      else
        match env.cooling_register with
        | .error e => if e = -ENODEV then -EPROBE_DEFER else e
        | .ok _ =>
          match env.hwmon_register with
          | .error e => if e = -ENODEV then -EPROBE_DEFER else e
          | .ok _ => 0

end Platform

/-! Theorems about the embedded drivers. -/

/-- C1: the claim says a requested speed above 65535 is saturating-clamped
to 65535 and transmitted as the bytes 0xFF 0xFF. The code instead clamps
with upper bound 1 << 16 = 65536, which the 16-bit encode truncates to 0:
at the requested speed 70000 the transmitted buffer is the bytes
0x00 0x00, not 0xFF 0xFF, so the fan would be commanded to speed 0. -/
theorem C1_set_wire_truncates_above_u16max :
    Platform.surface_fan_set_cur_state_wire 70000 = { lo := 0, hi := 0 } ∧
    Platform.surface_fan_set_cur_state_wire 70000 ≠ { lo := 255, hi := 255 } ∧
    le16_to_cpu (Platform.surface_fan_set_cur_state_wire 70000) = 0 := by
  decide

/-- C2: surface_fan_probe ends in the Deferred state (-EPROBE_DEFER) when
ssam_client_bind signals the controller is not yet enumerated (-ENODEV);
it ends in the permanent Failed state (-ENODEV) when the presence-probe
read fails with any status; and it ends in the Bound state (0) when the
probe read returns a valid buffer and the subsequent allocation and
registrations succeed. -/
theorem C2_probe_state_machine (env : Platform.ProbeEnv) (e : Int) (b : Le16) :
    Platform.surface_fan_probe
      { env with client_bind := Except.error (-ENODEV) } = -EPROBE_DEFER ∧
    Platform.surface_fan_probe
      { env with client_bind := Except.ok (), fan_get := Except.error e }
      = -ENODEV ∧
    Platform.surface_fan_probe
      { client_bind := Except.ok (), fan_get := Except.ok b,
        kzalloc_ok := true, cooling_register := Except.ok (),
        hwmon_register := Except.ok () } = 0 :=
  ⟨rfl, rfl, rfl⟩

/-- C3: for every v in [0, 65535], surface_fan_set_cur_state transmits
exactly v as a 16-bit little-endian buffer, unchanged, to the channel set
transaction. -/
theorem C3_set_passes_value_unchanged (v : Nat) (h : v ≤ 65535)
    (fan_set : Le16 → Int) :
    Platform.surface_fan_set_cur_state_wire v
      = { lo := v % 256, hi := v / 256 } ∧
    le16_to_cpu (Platform.surface_fan_set_cur_state_wire v) = v ∧
    Platform.surface_fan_set_cur_state fan_set v
      = fan_set { lo := v % 256, hi := v / 256 } := by
  have hwire : Platform.surface_fan_set_cur_state_wire v
      = { lo := v % 256, hi := v / 256 } := by
    simp only [Platform.surface_fan_set_cur_state_wire, cpu_to_le16, clamp,
      Le16.mk.injEq]
    omega
  refine ⟨hwire, ?_, ?_⟩
  · rw [hwire]
    simp only [le16_to_cpu]
    omega
  · rw [Platform.surface_fan_set_cur_state, hwire]

/-- Witness for C3 at v = 4500: the transmitted buffer is the bytes
0x94 0x11, which decode back to 4500. -/
theorem C3_set_passes_value_unchanged_witness :
    Platform.surface_fan_set_cur_state_wire 4500
      = { lo := 4500 % 256, hi := 4500 / 256 } ∧
    le16_to_cpu (Platform.surface_fan_set_cur_state_wire 4500) = 4500 ∧
    Platform.surface_fan_set_cur_state (fun _ : Le16 => (0 : Int)) 4500
      = (fun _ : Le16 => (0 : Int)) { lo := 4500 % 256, hi := 4500 / 256 } :=
  C3_set_passes_value_unchanged 4500 (by decide) (fun _ : Le16 => (0 : Int))

/-- C4 counterexample: the claim says a write against the non-writable
profile returns the Unsupported fault. At the concrete request
(hwmon_fan, hwmon_fan_input, channel 0, value 1000) the hwmon write entry
point returns 0, a success, which is neither -EOPNOTSUPP nor any negative
error code. -/
theorem C4_counterexample_write_returns_success :
    (Platform.surface_fan_hwmon_write hwmon_fan hwmon_fan_input 0 1000).ret
      = 0 ∧
    (Platform.surface_fan_hwmon_write hwmon_fan hwmon_fan_input 0 1000).ret
      ≠ -EOPNOTSUPP ∧
    ¬ (Platform.surface_fan_hwmon_write hwmon_fan hwmon_fan_input 0 1000).ret
      < 0 := by
  decide

/-- C4 amended: a write issued against the non-writable hwmon interface
returns 0 (success, a silent no-op) for every sensor type, attribute,
channel and value, and performs zero transport calls. -/
theorem C4_amended_write_noop_success (type attr : Nat) (channel val : Int) :
    Platform.surface_fan_hwmon_write type attr channel val
      = { ret := 0, transportCalls := 0 } :=
  rfl

/-- C5: on the variant where setting the speed is not supported through
hwmon, the write entry point accepts every request and returns success
as a no-op, never an error, and performs no transport call. -/
theorem C5_unsupported_write_is_noop (type attr : Nat) (channel val : Int) :
    (Platform.surface_fan_hwmon_write type attr channel val).ret = 0 ∧
    ¬ (Platform.surface_fan_hwmon_write type attr channel val).ret < 0 ∧
    (Platform.surface_fan_hwmon_write type attr channel val).transportCalls
      = 0 :=
  ⟨rfl, by show ¬ (0 : Int) < 0; decide, rfl⟩

/-- C6 counterexample: the claim says every variant surfaces a failed
get-speed transaction as an I/O error. The platform variant sensor read,
given a failing channel, returns -1, which is not - EIO. -/
theorem C6_counterexample_platform_not_eio :
    (Platform.surface_fan_hwmon_read (Except.error (- EIO))
      hwmon_fan hwmon_fan_input).ret = -1 ∧
    (-1 : Int) ≠ - EIO := by
  decide

/-- C6 amended: when the get-speed transaction fails during a sensor rpm
read, the hwmon-only variant surfaces - EIO to the consumer, while the
platform variant surfaces the generic error -1. -/
theorem C6_amended_read_failure_codes (e1 e2 : Int) :
    (HwmonOnly.surface_fan_hwmon_read (Except.error e1)
      hwmon_fan hwmon_fan_input).ret = - EIO ∧
    (Platform.surface_fan_hwmon_read (Except.error e2)
      hwmon_fan hwmon_fan_input).ret = -1 :=
  ⟨rfl, rfl⟩

/-- C7: the fan_min and fan_max reads of both variants always succeed,
yield the constant bounds (3000 and 7500 for the hwmon-only variant, 2000
and 7200 for the platform variant), and perform zero transport calls,
whatever the channel would do. -/
theorem C7_min_max_constant (g1 g2 g3 g4 : Except Int Le16) :
    HwmonOnly.surface_fan_hwmon_read g1 hwmon_fan hwmon_fan_min
      = { ret := 0, val := some 3000, transportCalls := 0 } ∧
    HwmonOnly.surface_fan_hwmon_read g2 hwmon_fan hwmon_fan_max
      = { ret := 0, val := some 7500, transportCalls := 0 } ∧
    Platform.surface_fan_hwmon_read g3 hwmon_fan hwmon_fan_min
      = { ret := 0, val := some 2000, transportCalls := 0 } ∧
    Platform.surface_fan_hwmon_read g4 hwmon_fan hwmon_fan_max
      = { ret := 0, val := some 7200, transportCalls := 0 } :=
  ⟨rfl, rfl, rfl, rfl⟩

/-- C8: when the get-speed transaction succeeds with buffer b, the cooling
get_cur_state and the platform sensor fan_input read both succeed and
both report the little-endian-decoded value le16_to_cpu b; the buffer
0xFF 0xFF yields 65535, above the profile maximum 7200, so the value is
not clamped to the profile bounds. -/
theorem C8_get_cur_state_matches_rpm_read (b : Le16) :
    (Platform.surface_fan_get_cur_state (Except.ok b)).ret = 0 ∧
    (Platform.surface_fan_get_cur_state (Except.ok b)).val
      = some (le16_to_cpu b) ∧
    (Platform.surface_fan_hwmon_read (Except.ok b)
      hwmon_fan hwmon_fan_input).ret = 0 ∧
    (Platform.surface_fan_hwmon_read (Except.ok b)
      hwmon_fan hwmon_fan_input).val = some (le16_to_cpu b) ∧
    (Platform.surface_fan_get_cur_state
      (Except.ok { lo := 255, hi := 255 })).val = some 65535 :=
  ⟨rfl, rfl, rfl, rfl, rfl⟩

/-- C9: on a failed get-speed transaction with status e, get_cur_state
still writes the decode of its zero-initialized buffer (the value 0) to
the state output and returns e, while the platform sensor fan_input read
returns -1 leaving its output untouched. -/
theorem C9_failed_get_writes_output (e : Int) :
    (Platform.surface_fan_get_cur_state (Except.error e)).ret = e ∧
    (Platform.surface_fan_get_cur_state (Except.error e)).val = some 0 ∧
    (Platform.surface_fan_hwmon_read (Except.error e)
      hwmon_fan hwmon_fan_input).ret = -1 ∧
    (Platform.surface_fan_hwmon_read (Except.error e)
      hwmon_fan hwmon_fan_input).val = none :=
  ⟨rfl, rfl, rfl, rfl⟩

/-- C10: for every read request whose sensor type is not hwmon_fan, the
hwmon-only variant returns 0 without writing the output, while the
platform variant returns -1 for the same kind of request; neither
performs a transport call. -/
theorem C10_nonfan_type_divergence (g1 g2 : Except Int Le16)
    (type attr1 attr2 : Nat) (h : type ≠ hwmon_fan) :
    HwmonOnly.surface_fan_hwmon_read g1 type attr1
      = { ret := 0, val := none, transportCalls := 0 } ∧
    Platform.surface_fan_hwmon_read g2 type attr2
      = { ret := -1, val := none, transportCalls := 0 } := by
  constructor
  · simp [HwmonOnly.surface_fan_hwmon_read, h]
  · simp [Platform.surface_fan_hwmon_read, h]

/-- Witness for C10 at the sensor type hwmon_temp, which is not hwmon_fan. -/
theorem C10_nonfan_type_divergence_witness :
    HwmonOnly.surface_fan_hwmon_read (Except.error (- EIO))
      hwmon_temp hwmon_fan_input
      = { ret := 0, val := none, transportCalls := 0 } ∧
    Platform.surface_fan_hwmon_read (Except.error (- EIO))
      hwmon_temp hwmon_fan_input
      = { ret := -1, val := none, transportCalls := 0 } :=
  C10_nonfan_type_divergence (Except.error (- EIO)) (Except.error (- EIO))
    hwmon_temp hwmon_fan_input hwmon_fan_input (by decide)

end SurfaceFan
